import Mathlib

/-!
Verification of the Archive Release Resolution Engine of naif-pds4-bundler
(`npb/classes/setup.py` and the `match_patterns` utility), shallowly embedded
in Lean 4.  Python strings are modelled as `String` and string scanning is
done over `List Char`; Python's lexicographic string comparison (by code
point) is modelled by `pyLtL`/`pyLeL`.  Filesystem observations (directory
listings, path-existence) are passed in explicitly; the regular-expression
collaborator (`re.search`) is passed in as an abstract Boolean matcher.
-/

/-- Python `a < b` on strings: lexicographic comparison by code point,
restricted to the underlying character lists. -/
def pyLtL : List Char → List Char → Bool
  | [], [] => false
  | [], _ :: _ => true
  | _ :: _, [] => false
  | a :: as, b :: bs =>
      if a.toNat < b.toNat then true
      else if b.toNat < a.toNat then false
      else pyLtL as bs

/-- Python `a <= b` on strings (`a <= b` iff `not (b < a)`). -/
def pyLeL (a b : List Char) : Bool := !(pyLtL b a)

/-- Python `a <= b` on `String`. -/
def pyLe (a b : String) : Bool := pyLeL a.toList b.toList

/-- `pyLe` as a relation, for sortedness statements. -/
def pyLeProp (a b : String) : Prop := pyLe a b = true

/-- Insert a string into an ascending list (helper of `sortPy`). -/
def insertPy (x : String) : List String → List String
  | [] => [x]
  | y :: ys => if pyLe x y then x :: y :: ys else y :: insertPy x ys

/-- Python `list.sort()` on strings: ascending lexicographic order.  Since
the order is total and antisymmetric the sorted result is unique, so any
correct sorting algorithm models `list.sort()` faithfully. -/
def sortPy : List String → List String
  | [] => []
  | x :: xs => insertPy x (sortPy xs)

/-- `startsWithL pat s` holds iff `pat` is an initial segment of `s`. -/
def startsWithL : List Char → List Char → Bool
  | [], _ => true
  | _ :: _, [] => false
  | a :: as, b :: bs => a == b && startsWithL as bs

/-- Python `pat in s` (substring containment) over character lists. -/
def containsSubL (pat : List Char) : List Char → Bool
  | [] => pat.isEmpty
  | c :: rest => startsWithL pat (c :: rest) || containsSubL pat rest

/-- Python `t in s` on `String`. -/
def pyIn (t s : String) : Bool := containsSubL t.toList s.toList

/-- `startsWithStr p s`: `s` begins with `p` (models a trailing-`*` glob). -/
def startsWithStr (p s : String) : Bool := startsWithL p.toList s.toList

/-- `endsWithStr suf s`: `s` ends with `suf`. -/
def endsWithStr (suf s : String) : Bool :=
  startsWithL suf.toList.reverse s.toList.reverse

/-- Python `s.replace(pat, '')`: remove every non-overlapping occurrence of
`pat`, scanning left to right.  The fuel argument bounds recursion depth;
`s.length` fuel always suffices since every step consumes one character or
one whole occurrence of `pat`. -/
def removeAllL (pat : List Char) : Nat → List Char → List Char
  | _, [] => []
  | 0, s => s
  | fuel + 1, c :: rest =>
      if !pat.isEmpty && startsWithL pat (c :: rest) then
        removeAllL pat fuel (List.drop pat.length (c :: rest))
      else c :: removeAllL pat fuel rest

/-- Python `s.replace(pat, '')` on `String`. -/
def pyRemoveAll (s pat : String) : String :=
  String.mk (removeAllL pat.toList s.toList.length s.toList)

/-- Python `s.split(sep)` for a non-empty separator: non-overlapping,
left-to-right.  Fuel-bounded as in `removeAllL`. -/
def splitL (sep : List Char) : Nat → List Char → List (List Char)
  | 0, s => [s]
  | fuel + 1, s =>
      if !sep.isEmpty && startsWithL sep s then
        [] :: splitL sep fuel (List.drop sep.length s)
      else
        match s with
        | [] => [[]]
        | c :: rest =>
            match splitL sep fuel rest with
            | [] => [[c]]
            | seg :: segs => (c :: seg) :: segs

/-- Python `s.split(sep)` on `String`. -/
def pySplit (s sep : String) : List String :=
  (splitL sep.toList s.toList.length s.toList).map String.mk

/-- Python `int(s)` on the digit-only strings produced by the release-number
filename convention (`int` also accepts signs/whitespace/underscores, which
never appear in these fields; on any non-digit input the call raises, here
`none`). -/
def pyInt (s : String) : Option Nat :=
  if s.toList.isEmpty || !(s.toList.all Char.isDigit) then none
  else some (s.toList.foldl (fun n c => 10 * n + (c.toNat - 48)) 0)

/-- Python `f'[n]:03[',']'` formatting: decimal digits of `n`, zero-padded on
the left to at least three characters. -/
def pad3 (n : Nat) : String :=
  let s := toString n
  if s.length ≥ 3 then s else String.mk (List.replicate (3 - s.length) '0') ++ s

/-- The release state computed by `Setup.set_release`. -/
structure ReleaseState where
  release : String
  current_release : String
  increment : Bool
deriving DecidableEq, Repr

/-- `int(name.split(sep)[-1].split('.')[0])` from `Setup.set_release`. -/
def parse_release_number (sep name : String) : Option Nat :=
  pyInt (List.headD (pySplit (List.getLastD (pySplit name sep) "") ".") "")

/-- `Setup.set_release`: the final-area glob `bundle_<acr>_spice_v*` is
modelled as a prefix filter over the names in the final bundle directory, and
the working-area glob `<acr>_release_*.kernel_list` as a prefix-and-suffix
filter.  Python sorts the candidate names (`releases.sort()`) and indexes
`releases[-1]`; an empty candidate list or a failed `int(...)` parse raises
and falls through to the next source (`try`/`except`).  `current_release` is
`f'[int]:03[']'` of the parsed number and `release` is the same formatting of
its successor (the code re-parses the padded string, which yields the same
integer). -/
def set_release (final_listing working_listing : List String)
    (mission_accronym : String) : ReleaseState :=
  match (sortPy (final_listing.filter (fun f =>
      startsWithStr ("bundle_" ++ mission_accronym ++ "_spice_v") f))).getLast?.bind
      (parse_release_number "_spice_v") with
  | some n => { release := pad3 (n + 1), current_release := pad3 n, increment := true }
  | none =>
      match (sortPy (working_listing.filter (fun f =>
          startsWithStr (mission_accronym ++ "_release_") f &&
          endsWithStr ".kernel_list" f &&
          decide ((mission_accronym ++ "_release_").length +
            (".kernel_list" : String).length ≤ f.length)))).getLast?.bind
          (parse_release_number "_release_") with
      | some n => { release := pad3 (n + 1), current_release := pad3 n, increment := true }
      | none => { release := "001", current_release := "", increment := false }

/-- `Setup.check_times`: the four already-converted time values are compared;
any violated comparison yields the incoherent-archive-coverage error.  Times
are opaque comparable magnitudes, modelled as `Int`. -/
def check_times (et_msn_strt et_inc_strt et_inc_stop et_mis_stop : Int) :
    Except String Unit :=
  if ¬(et_msn_strt < et_inc_strt) ∨ ¬(et_inc_strt ≤ et_inc_stop) ∨
     ¬(et_inc_stop ≤ et_mis_stop) ∨ ¬(et_msn_strt < et_mis_stop) then
    Except.error "-- Provided dates are note correct. Check the archive coverage"
  else Except.ok ()

/-- The two failure kinds of the meta-kernel name check in
`Setup.check_configuration`. -/
inductive MKCheckError
  | patternNotPresent (tok : String)
  | unresolvedPattern
deriving DecidableEq, Repr

/-- The per-pattern loop of the meta-kernel name check: for each declared
pattern token (in declaration order), Python tests `name_pattern in
metal_name_check` against the current working copy and, on success, removes
every occurrence of `'$' + name_pattern` from it (`str.replace` replaces all
occurrences). -/
def mk_name_loop : String → List String → Except MKCheckError String
  | s, [] => Except.ok s
  | s, t :: ts =>
      if pyIn t s then mk_name_loop (pyRemoveAll s ("$" ++ t)) ts
      else Except.error (MKCheckError.patternNotPresent t)

/-- The meta-kernel name check of `Setup.check_configuration`: run the
per-token loop, then fail with the unresolved-pattern error iff a `'$'`
remains in the working copy. -/
def check_mk_name (name : String) (toks : List String) : Except MKCheckError Unit :=
  match mk_name_loop name toks with
  | Except.error e => Except.error e
  | Except.ok s => if pyIn "$" s then Except.error MKCheckError.unresolvedPattern
                   else Except.ok ()

/-- The working copy after processing every declared token: fold of
remove-all-occurrences over the token list. -/
def mk_name_reduce (name : String) (toks : List String) : String :=
  toks.foldl (fun s t => pyRemoveAll s ("$" ++ t)) name

/-- The first declared token (in declaration order) that does not occur in
its working copy, if any. -/
def mk_name_first_absent : String → List String → Option String
  | _, [] => none
  | s, t :: ts =>
      if pyIn t s then mk_name_first_absent (pyRemoveAll s ("$" ++ t)) ts
      else some t

/-- The three failure kinds of the filename pattern matcher. -/
inductive MatchPatternError
  | undefinedField (name : String)
  | lengthMismatch
  | literalMismatch
deriving DecidableEq, Repr

/-- Look up a declared field's length by name. -/
def fieldLookup (fields : List (String × Nat)) (n : String) : Option Nat :=
  match fields.find? (fun p => p.1 == n) with
  | some p => some p.2
  | none => none

/-- Modelled from the spec: the total filename length a template reconstructs
once every `$NAME` placeholder is substituted by its declared field length
(the implementation of `match_patterns` is not under `src/`; §4.1 defines a
left-to-right walk, placeholders being `$` followed by an alphanumeric name).
An undeclared placeholder is the undefined-field failure.  Fuel bounds the
recursion; `template length + 1` always suffices. -/
def templateLen (fields : List (String × Nat)) : Nat → List Char →
    Except MatchPatternError Nat
  | 0, _ => Except.ok 0
  | _, [] => Except.ok 0
  | fuel + 1, '$' :: rest =>
      match fieldLookup fields (String.mk (rest.takeWhile Char.isAlphanum)) with
      | none => Except.error
          (MatchPatternError.undefinedField (String.mk (rest.takeWhile Char.isAlphanum)))
      | some len =>
          match templateLen fields fuel (rest.dropWhile Char.isAlphanum) with
          | Except.ok k => Except.ok (len + k)
          | Except.error e => Except.error e
  | fuel + 1, _ :: rest =>
      match templateLen fields fuel rest with
      | Except.ok k => Except.ok (k + 1)
      | Except.error e => Except.error e

/-- Modelled from the spec: the left-to-right walk of §4.1 — literal template
characters are matched positionally against the filename (a difference is the
literal-mismatch failure); at a `$NAME` placeholder exactly the declared
number of characters is consumed from the filename and bound under the
field's name, in template order. -/
def matchWalk (fields : List (String × Nat)) : Nat → List Char → List Char →
    Except MatchPatternError (List (String × String))
  | 0, _, _ => Except.error MatchPatternError.lengthMismatch
  | _, [], [] => Except.ok []
  | _, [], _ :: _ => Except.error MatchPatternError.lengthMismatch
  | fuel + 1, '$' :: rest, fname =>
      match fieldLookup fields (String.mk (rest.takeWhile Char.isAlphanum)) with
      | none => Except.error
          (MatchPatternError.undefinedField (String.mk (rest.takeWhile Char.isAlphanum)))
      | some len =>
          if fname.length < len then Except.error MatchPatternError.lengthMismatch
          else
            match matchWalk fields fuel (rest.dropWhile Char.isAlphanum)
                (fname.drop len) with
            | Except.ok binds => Except.ok
                ((String.mk (rest.takeWhile Char.isAlphanum),
                  String.mk (fname.take len)) :: binds)
            | Except.error e => Except.error e
  | _ + 1, _ :: _, [] => Except.error MatchPatternError.lengthMismatch
  | fuel + 1, c :: rest, f :: fs =>
      if c == f then matchWalk fields fuel rest fs
      else Except.error MatchPatternError.literalMismatch

/-- Modelled from the spec: `match_patterns(name, name_w_pattern, patterns)`
(implementation not under `src/`, only its unit tests).  §4.1: first the
reconstructed total length is compared with the filename length (the
length-mismatch failure), then the positional walk binds each placeholder to
the exact substring at its position; the result mapping is in template order.
Fields are `(name, length)` pairs as declared in configuration. -/
def match_patterns (name name_w_pattern : String) (fields : List (String × Nat)) :
    Except MatchPatternError (List (String × String)) :=
  match templateLen fields (name_w_pattern.length + 1) name_w_pattern.toList with
  | Except.error e => Except.error e
  | Except.ok total =>
      if total ≠ name.length then Except.error MatchPatternError.lengthMismatch
      else matchWalk fields (name_w_pattern.length + 1) name_w_pattern.toList
          name.toList

/-- One pattern entry of `Setup.load_kernels`: if the pattern is an existing
literal path (`os.path.exists`) it is used directly; otherwise the category
subdirectory listing is filtered by the abstract regular-expression matcher
(`re.search(pattern, f)`), the candidates are sorted when more than one
matched, and the last one is selected. -/
def resolve_pattern (existing listing : List String)
    (search : String → String → Bool) (pattern : String) : List String :=
  if existing.contains pattern then [pattern]
  else if (listing.filter (fun f => search pattern f)).isEmpty then []
  else [(if (listing.filter (fun f => search pattern f)).length > 1
         then sortPy (listing.filter (fun f => search pattern f))
         else listing.filter (fun f => search pattern f)).getLastD ""]

/-- All pattern entries of one kernel category, in order. -/
def resolveAll (existing listing : List String)
    (search : String → String → Bool) (patterns : List String) : List String :=
  patterns.foldl (fun acc p => acc ++ resolve_pattern existing listing search p) []

/-- Log levels of the Python `logging` calls in `Setup.load_kernels`
(`logging.*` never aborts the run; only `error_message` does). -/
inductive LogLevel
  | info
  | warning
  | error
deriving DecidableEq, Repr

/-- Outcome of `Setup.load_kernels`: `nameError` models the unbound-variable
`NameError` at `if not lsk:` when no LSK pattern was configured (the name
`lsk` only leaks out of the pattern-extraction loop); `fatal` models
`error_message` (which aborts the run); `completed` carries the resolved
kernel lists and the emitted log records. -/
inductive LoadKernelsOutcome
  | nameError
  | fatal (msg : String)
  | completed (lsks pcks fks sclks : List String)
      (logs : List (LogLevel × String))
deriving DecidableEq, Repr

/-- `Setup.load_kernels`, after the pattern-extraction loops: resolve the LSK
patterns, then run `if not lsk:` — note that `lsk` is the leaked loop
variable holding the last raw LSK pattern string, not the resolved list
`lsks` — then abort iff more than one LSK was resolved, then resolve and log
the PCK, FK and SCLK categories (absence of PCK/FK logs a warning, absence of
SCLK logs at error level; neither aborts). -/
def load_kernels (existing : List String)
    (lskDirListing pckDirListing fkDirListing sclkDirListing : List String)
    (search : String → String → Bool)
    (lsk_patterns pck_patterns fk_patterns sclk_patterns : List String) :
    LoadKernelsOutcome :=
  let lsks := resolveAll existing lskDirListing search lsk_patterns
  match lsk_patterns.getLast? with
  | none => LoadKernelsOutcome.nameError
  | some lskVar =>
      let lskLog := if lskVar = "" then (LogLevel.error, "-- LSK not found.")
                    else (LogLevel.info, "-- LSK loaded.")
      if lsks.length > 1 then LoadKernelsOutcome.fatal "Only one LSK should be obtained."
      else
        let pcks := resolveAll existing pckDirListing search pck_patterns
        let pckLog := if pcks.isEmpty then (LogLevel.warning, "-- PCK not found.")
                      else (LogLevel.info, "-- PCK(s) loaded.")
        let fks := resolveAll existing fkDirListing search fk_patterns
        let fkLog := if fks.isEmpty then (LogLevel.warning, "-- FK not found.")
                     else (LogLevel.info, "-- FK(s) loaded.")
        let sclks := resolveAll existing sclkDirListing search sclk_patterns
        let sclkLog := if sclks.isEmpty then (LogLevel.error, "-- SCLK not found.")
                       else (LogLevel.info, "-- SCLK(s) loaded.")
        LoadKernelsOutcome.completed lsks pcks fks sclks
          [lskLog, pckLog, fkLog, sclkLog]

/-- A concrete instance of the abstract `re.search` matcher: plain substring
containment (exact for patterns without regex metacharacters). -/
def substrSearch (pattern f : String) : Bool := pyIn pattern f

/-- Python truthiness of a string attribute value: non-empty. -/
def pyTruthy (s : String) : Bool := !(s == "")

/-- The increment-bound pairing check of `Setup.check_configuration`
(lines 195-202): attributes absent from the configuration are `none`; when
both attributes exist, the check fails iff exactly one of them is truthy
(non-empty). -/
def check_increment_pairing : Option String → Option String → Bool
  | some s, some f => !((!pyTruthy s && pyTruthy f) || (pyTruthy s && !pyTruthy f))
  | _, _ => true

/-- Modelled from the spec: the Orchestrator (`main`, not under `src/`) runs
`check_configuration` — which contains the pairing check — before
`check_times`; the sequencing is modelled by the pairing check guarding the
temporal check. -/
def orchestrator_checks (inc_start inc_finish : Option String)
    (a b c d : Int) : Except String Unit :=
  if check_increment_pairing inc_start inc_finish then check_times a b c d
  else Except.error
    "If provided via configuration, increment_start and increment_finish parameters need to be provided together."

/-- The end-of-line configuration step of `Setup.__init__` (lines 136-144):
`CRLF` and `LF` set `(eol, eol_len)`; anything else is an error. -/
def configure_end_of_line (end_of_line : String) : Except String (String × Nat) :=
  if end_of_line = "CRLF" then Except.ok ("\r\n", 2)
  else if end_of_line = "LF" then Except.ok ("\n", 1)
  else Except.error "End of Line provided via configuration is not CRLF nor LF"

/-- Final-area listing with prior bundle labels for releases 001..007, in a
scrambled order (the code sorts it). -/
def c1FinalListing : List String :=
  ["bundle_insight_spice_v003.xml", "bundle_insight_spice_v001.xml",
   "bundle_insight_spice_v007.xml", "bundle_insight_spice_v005.xml",
   "bundle_insight_spice_v002.xml", "bundle_insight_spice_v006.xml",
   "bundle_insight_spice_v004.xml"]


/-! ### Order lemmas for the Python string comparison -/

/-- `pyLtL` is irreflexive. -/
theorem pyLtL_irrefl : ∀ a : List Char, pyLtL a a = false
  | [] => rfl
  | c :: cs => by
      have ih := pyLtL_irrefl cs
      simp [pyLtL, ih]

/-- `pyLtL` is asymmetric. -/
theorem pyLtL_asymm : ∀ a b : List Char, pyLtL a b = true → pyLtL b a = false
  | [], [], h => by simp [pyLtL] at h
  | [], _ :: _, _ => rfl
  | _ :: _, [], h => by simp [pyLtL] at h
  | a :: as, b :: bs, h => by
      by_cases h1 : a.toNat < b.toNat
      · have h2 : ¬b.toNat < a.toNat := by omega
        simp [pyLtL, h1, h2]
      · by_cases h2 : b.toNat < a.toNat
        · simp [pyLtL, h1, h2] at h
        · have ih := pyLtL_asymm as bs (by simpa [pyLtL, h1, h2] using h)
          simp [pyLtL, h1, h2, ih]

/-- Transitivity of the reflexive order, phrased on the strict one. -/
theorem pyLtL_false_trans : ∀ a b c : List Char,
    pyLtL b a = false → pyLtL c b = false → pyLtL c a = false
  | [], _, c, _, _ => by cases c <;> rfl
  | _ :: _, [], _, h1, _ => by simp [pyLtL] at h1
  | _ :: _, _ :: _, [], _, h2 => by simp [pyLtL] at h2
  | x :: xs, y :: ys, z :: zs, h1, h2 => by
      have hxy : ¬y.toNat < x.toNat := by
        intro hc; simp [pyLtL, hc] at h1
      have hyz : ¬z.toNat < y.toNat := by
        intro hc; simp [pyLtL, hc] at h2
      have hzx : ¬z.toNat < x.toNat := by omega
      by_cases he : x.toNat < z.toNat
      · simp [pyLtL, hzx, he]
      · have ex : x.toNat = z.toNat := by omega
        have e1 : ¬x.toNat < y.toNat := by omega
        have e2 : ¬y.toNat < z.toNat := by omega
        have t1 : pyLtL ys xs = false := by simpa [pyLtL, hxy, e1] using h1
        have t2 : pyLtL zs ys = false := by simpa [pyLtL, hyz, e2] using h2
        have ih := pyLtL_false_trans xs ys zs t1 t2
        simp [pyLtL, hzx, he, ih]

/-- `pyLeL` is reflexive. -/
theorem pyLeL_refl (a : List Char) : pyLeL a a = true := by
  simp [pyLeL, pyLtL_irrefl]

/-- `pyLeL` is total. -/
theorem pyLeL_total (a b : List Char) : pyLeL a b = true ∨ pyLeL b a = true := by
  cases h : pyLtL b a with
  | false => exact Or.inl (by simp [pyLeL, h])
  | true => exact Or.inr (by simp [pyLeL, pyLtL_asymm b a h])

/-- `pyLeL` is transitive. -/
theorem pyLeL_trans (a b c : List Char)
    (h1 : pyLeL a b = true) (h2 : pyLeL b c = true) : pyLeL a c = true := by
  simp only [pyLeL, Bool.not_eq_true'] at h1 h2 ⊢
  exact pyLtL_false_trans a b c h1 h2

/-- `pyLe` is reflexive. -/
theorem pyLe_refl (s : String) : pyLe s s = true := pyLeL_refl _

/-- `pyLe` is total. -/
theorem pyLe_total (a b : String) : pyLe a b = true ∨ pyLe b a = true :=
  pyLeL_total _ _

/-- `pyLe` is transitive. -/
theorem pyLe_trans {a b c : String}
    (h1 : pyLe a b = true) (h2 : pyLe b c = true) : pyLe a c = true :=
  pyLeL_trans _ _ _ h1 h2

/-! ### Sorting lemmas -/

/-- Membership in `insertPy`. -/
theorem mem_insertPy (z x : String) : ∀ l : List String,
    z ∈ insertPy x l ↔ z = x ∨ z ∈ l
  | [] => by simp [insertPy]
  | y :: ys => by
      by_cases h : pyLe x y = true
      · simp [insertPy, h]
      · have ih := mem_insertPy z x ys
        simp [insertPy, h, ih]
        tauto

/-- `sortPy` preserves membership. -/
theorem mem_sortPy (z : String) : ∀ l : List String, z ∈ sortPy l ↔ z ∈ l
  | [] => Iff.rfl
  | x :: xs => by
      have ih := mem_sortPy z xs
      simp [sortPy, mem_insertPy, ih]

/-- `insertPy` preserves sortedness. -/
theorem pairwise_insertPy (x : String) : ∀ l : List String,
    List.Pairwise pyLeProp l → List.Pairwise pyLeProp (insertPy x l)
  | [], _ => by simp [insertPy, pyLeProp]
  | y :: ys, h => by
      rcases List.pairwise_cons.mp h with ⟨hy, hys⟩
      by_cases hxy : pyLe x y = true
      · have e : insertPy x (y :: ys) = x :: y :: ys := by simp [insertPy, hxy]
        rw [e]
        refine List.pairwise_cons.mpr ⟨?_, h⟩
        intro b hb
        rcases List.mem_cons.mp hb with rfl | hb
        · exact hxy
        · exact pyLe_trans hxy (hy b hb)
      · have hyx : pyLe y x = true := by
          rcases pyLe_total x y with h' | h'
          · exact absurd h' hxy
          · exact h'
        have e : insertPy x (y :: ys) = y :: insertPy x ys := by simp [insertPy, hxy]
        rw [e]
        refine List.pairwise_cons.mpr ⟨?_, pairwise_insertPy x ys hys⟩
        intro b hb
        rcases (mem_insertPy b x ys).mp hb with rfl | hb
        · exact hyx
        · exact hy b hb

/-- `sortPy` produces an ascending list. -/
theorem pairwise_sortPy : ∀ l : List String, List.Pairwise pyLeProp (sortPy l)
  | [] => List.Pairwise.nil
  | x :: xs => pairwise_insertPy x (sortPy xs) (pairwise_sortPy xs)

/-- `getLastD` of a non-empty list is a member. -/
theorem getLastD_mem_of_ne_nil : ∀ {l : List String}, l ≠ [] → ∀ d : String,
    l.getLastD d ∈ l
  | [], h, _ => absurd rfl h
  | a :: t, _, d => by
      rw [List.getLastD_cons]
      exact List.getLastD_mem_cons t a

/-- In an ascending list every member is `pyLe` the last element. -/
theorem pairwise_getLastD_ge : ∀ (l : List String) (d z : String),
    List.Pairwise pyLeProp l → z ∈ l → pyLe z (l.getLastD d) = true
  | [], _, z, _, hz => absurd hz (List.not_mem_nil z)
  | a :: t, d, z, h, hz => by
      rw [List.getLastD_cons]
      rcases List.pairwise_cons.mp h with ⟨ha, ht⟩
      rcases List.mem_cons.mp hz with rfl | hz
      · cases t with
        | nil => exact pyLe_refl z
        | cons b ts =>
            exact ha _ (getLastD_mem_of_ne_nil (List.cons_ne_nil b ts) z)
      · exact pairwise_getLastD_ge t a z ht hz

/-! ### Claim theorems -/

/-- C1 (counterexample): `set_release` does not order prior-release
candidates by their parsed integer values.  With candidates of mixed number
widths the numerically highest prior release is 10, so the claim predicts the
successor `"011"`, but the code sorts the filenames lexicographically, takes
the last one (`...v2.xml`, since `'2' > '0'`), parses only it, and returns
`"003"`. -/
theorem C1_counterexample_numeric_ordering :
    (set_release ["bundle_insight_spice_v010.xml", "bundle_insight_spice_v2.xml"]
      [] "insight").release = "003" ∧
    pad3 (10 + 1) = "011" ∧
    ("003" : String) ≠ "011" :=
  ⟨rfl, rfl, by decide⟩

/-- C1 (amended): with prior bundle labels for releases 001..007 in the
3-digit zero-padded convention, `set_release` returns release `"008"` with
`current_release = "007"` and `is_increment = true`; candidates are ordered
lexicographically by filename (`releases.sort()`), only the lexicographically
last candidate is parsed to an integer, and the `"008"` (not `"8"`) form
comes from zero-padding the successor integer to three digits. -/
theorem C1_amended_lexicographic_selection :
    set_release c1FinalListing [] "insight" =
      { release := "008", current_release := "007", increment := true } ∧
    set_release ["bundle_insight_spice_v010.xml", "bundle_insight_spice_v2.xml"]
      [] "insight" =
      { release := "003", current_release := "002", increment := true } ∧
    pad3 (7 + 1) = "008" :=
  ⟨rfl, rfl, rfl⟩

/-- C2: `check_times` succeeds iff all four of `mission_start <
increment_start`, `increment_start <= increment_finish`, `increment_finish <=
mission_finish`, `mission_start < mission_finish` hold; any violation yields
the incoherent-archive-coverage error. -/
theorem C2_check_times_iff (a b c d : Int) :
    (check_times a b c d = Except.ok () ↔ (a < b ∧ b ≤ c ∧ c ≤ d ∧ a < d)) ∧
    (¬(a < b ∧ b ≤ c ∧ c ≤ d ∧ a < d) →
      check_times a b c d =
        Except.error "-- Provided dates are note correct. Check the archive coverage") := by
  unfold check_times
  by_cases h : a < b ∧ b ≤ c ∧ c ≤ d ∧ a < d
  · rw [if_neg (by tauto)]
    exact ⟨⟨fun _ => h, fun _ => rfl⟩, fun hn => absurd h hn⟩
  · rw [if_pos (by tauto)]
    exact ⟨⟨fun he => Except.noConfusion he, fun hh => absurd hh h⟩, fun _ => rfl⟩

/-- C2 witness: a coherent quadruple succeeds; swapping the increment bounds
(`increment_start > increment_finish`) fails. -/
theorem C2_check_times_witness :
    check_times 0 1 2 3 = Except.ok () ∧
    check_times 0 2 1 3 =
      Except.error "-- Provided dates are note correct. Check the archive coverage" :=
  ⟨(C2_check_times_iff 0 1 2 3).1.mpr (by decide),
   (C2_check_times_iff 0 2 1 3).2 (by decide)⟩

/-- C3: `match_patterns` on `insight_$YEAR_v$VERSION.tm` with fields declared
in the order `VERSION` (length 2), `YEAR` (length 4) applied to
`insight_2021_v02.tm` returns the mapping `YEAR -> "2021", VERSION -> "02"`
in template order (`YEAR` first); the same template with only `VERSION`
declared fails with the undefined-field error for `YEAR`. -/
theorem C3_match_patterns_concrete :
    match_patterns "insight_2021_v02.tm" "insight_$YEAR_v$VERSION.tm"
      [("VERSION", 2), ("YEAR", 4)] =
      Except.ok [("YEAR", "2021"), ("VERSION", "02")] ∧
    match_patterns "insight_2021_v02.tm" "insight_$YEAR_v$VERSION.tm"
      [("VERSION", 2)] =
      Except.error (MatchPatternError.undefinedField "YEAR") :=
  ⟨rfl, rfl⟩

/-- C4 (counterexample): the presence check runs against the progressively
reduced working copy, not the original template.  For template `"$AB"` with
declared tokens `["AB", "B"]`, both tokens occur in the template and the
claim's removal process leaves no `'$'` (so the claim predicts success), yet
the code fails with the pattern-not-present error for `"B"`: after `"$AB"`
is removed the working copy is empty when `"B"` is checked. -/
theorem C4_counterexample_working_copy :
    check_mk_name "$AB" ["AB", "B"] =
      Except.error (MKCheckError.patternNotPresent "B") ∧
    pyIn "AB" "$AB" = true ∧
    pyIn "B" "$AB" = true ∧
    pyIn "$" (pyRemoveAll (pyRemoveAll "$AB" "$AB") "$B") = false :=
  ⟨rfl, rfl, rfl, rfl⟩

/-- C4 (amended): processing declared tokens in declaration order over a
working copy, the check fails with pattern-not-present at the first token
that does not occur as a substring of the current working copy (each earlier
token's `$`-prefixed occurrences having all been removed); if every token
occurs at its turn, it fails with unresolved-pattern iff a `'$'` remains in
the fully reduced copy, and succeeds otherwise. -/
theorem C4_amended_working_copy (name : String) (toks : List String) :
    check_mk_name name toks =
      match mk_name_first_absent name toks with
      | some t => Except.error (MKCheckError.patternNotPresent t)
      | none =>
          if pyIn "$" (mk_name_reduce name toks) then
            Except.error MKCheckError.unresolvedPattern
          else Except.ok () := by
  induction toks generalizing name with
  | nil => rfl
  | cons t ts ih =>
      by_cases h : pyIn t name = true
      · have h1 : mk_name_loop name (t :: ts) =
            mk_name_loop (pyRemoveAll name ("$" ++ t)) ts := by
          simp [mk_name_loop, h]
        have h2 : mk_name_first_absent name (t :: ts) =
            mk_name_first_absent (pyRemoveAll name ("$" ++ t)) ts := by
          simp [mk_name_first_absent, h]
        have h3 : mk_name_reduce name (t :: ts) =
            mk_name_reduce (pyRemoveAll name ("$" ++ t)) ts := rfl
        unfold check_mk_name
        rw [h1, h2, h3]
        have := ih (pyRemoveAll name ("$" ++ t))
        unfold check_mk_name at this
        exact this
      · have hb : pyIn t name = false := Bool.eq_false_iff.mpr h
        simp [check_mk_name, mk_name_loop, mk_name_first_absent, hb]

/-- C5: per-pattern kernel resolution.  A pattern that denotes an existing
literal path is used directly, independently of any directory listing; a
non-path pattern keeps exactly the listing entries the abstract
regular-expression matcher accepts and, when at least one candidate matches,
selects the lexicographically last candidate (a member that every matching
candidate is `pyLe`-below). -/
theorem C5_kernel_resolution (existing listing : List String)
    (search : String → String → Bool) (p : String) :
    (existing.contains p = true →
      ∀ anyListing : List String, resolve_pattern existing anyListing search p = [p]) ∧
    (existing.contains p = false →
      ((listing.filter (fun f => search p f)) = [] →
        resolve_pattern existing listing search p = []) ∧
      (∀ c₀, c₀ ∈ listing.filter (fun f => search p f) →
        ∃ c, resolve_pattern existing listing search p = [c] ∧
          c ∈ listing.filter (fun f => search p f) ∧
          ∀ x ∈ listing.filter (fun f => search p f), pyLe x c = true)) := by
  constructor
  · intro h anyL
    unfold resolve_pattern
    rw [if_pos h]
  · intro h
    have hnot : ¬(existing.contains p = true) := by
      intro hc
      rw [h] at hc
      exact Bool.noConfusion hc
    constructor
    · intro hf
      unfold resolve_pattern
      rw [if_neg hnot, hf]
      rfl
    · intro c₀ hc₀
      have hne : listing.filter (fun f => search p f) ≠ [] :=
        List.ne_nil_of_mem hc₀
      have hemp : ¬((listing.filter (fun f => search p f)).isEmpty = true) := by
        simp [List.isEmpty_iff, hne]
      by_cases hlen : (listing.filter (fun f => search p f)).length > 1
      · refine ⟨(sortPy (listing.filter (fun f => search p f))).getLastD "", ?_, ?_, ?_⟩
        · unfold resolve_pattern
          rw [if_neg hnot, if_neg hemp, if_pos hlen]
        · have hs : sortPy (listing.filter (fun f => search p f)) ≠ [] := by
            intro hcon
            have hm := (mem_sortPy c₀ _).mpr hc₀
            rw [hcon] at hm
            exact absurd hm (List.not_mem_nil c₀)
          exact (mem_sortPy _ _).mp (getLastD_mem_of_ne_nil hs "")
        · intro x hx
          exact pairwise_getLastD_ge _ "" x (pairwise_sortPy _)
            ((mem_sortPy x _).mpr hx)
      · have hpos : 0 < (listing.filter (fun f => search p f)).length :=
          List.length_pos.mpr hne
        have hlen1 : (listing.filter (fun f => search p f)).length = 1 := by omega
        rcases List.length_eq_one.mp hlen1 with ⟨a, ha⟩
        refine ⟨a, ?_, ?_, ?_⟩
        · unfold resolve_pattern
          rw [if_neg hnot, if_neg hemp, if_neg hlen, ha]
          rfl
        · rw [ha]; exact List.mem_singleton_self a
        · intro x hx
          rw [ha] at hx
          rcases List.mem_singleton.mp hx with rfl
          exact pyLe_refl x

/-- C5 witness: a literal existing path is used directly, and a search among
three candidates selects the lexicographically last matching one. -/
theorem C5_kernel_resolution_witness :
    resolve_pattern ["kernels/lsk/naif0012.tls"] [] substrSearch
      "kernels/lsk/naif0012.tls" = ["kernels/lsk/naif0012.tls"] ∧
    (∃ c, resolve_pattern [] ["naif0011.tls", "naif0012.tls", "naif0010.tls"]
        substrSearch "naif00" = [c] ∧
      c ∈ (["naif0011.tls", "naif0012.tls", "naif0010.tls"] : List String).filter
        (fun f => substrSearch "naif00" f) ∧
      ∀ x ∈ (["naif0011.tls", "naif0012.tls", "naif0010.tls"] : List String).filter
        (fun f => substrSearch "naif00" f), pyLe x c = true) :=
  ⟨(C5_kernel_resolution ["kernels/lsk/naif0012.tls"] [] substrSearch
      "kernels/lsk/naif0012.tls").1 (by decide) [],
   ((C5_kernel_resolution [] ["naif0011.tls", "naif0012.tls", "naif0010.tls"]
      substrSearch "naif00").2 (by decide)).2 "naif0011.tls" (by decide)⟩

/-- C6: with no matching prior bundle label in the final area and no matching
prior kernel-list version marker in the working area, `set_release` returns
release `"001"`, previous release the empty string, and `is_increment =
false`. -/
theorem C6_first_release (finalL workL : List String) (acr : String)
    (hf : finalL.filter (fun f =>
        startsWithStr ("bundle_" ++ acr ++ "_spice_v") f) = [])
    (hw : workL.filter (fun f =>
        startsWithStr (acr ++ "_release_") f && endsWithStr ".kernel_list" f &&
        decide ((acr ++ "_release_").length +
          (".kernel_list" : String).length ≤ f.length)) = []) :
    set_release finalL workL acr =
      { release := "001", current_release := "", increment := false } := by
  unfold set_release
  rw [hf, hw]
  rfl

/-- C6 witness: empty final and working areas give the first release. -/
theorem C6_first_release_witness :
    set_release [] [] "insight" =
      { release := "001", current_release := "", increment := false } :=
  C6_first_release [] [] "insight" rfl rfl

/-- C7 (code behaviour at the failing input): an LSK pattern matching nothing
resolves zero LSK kernels, yet `load_kernels` completes without any fatal
error — the `if not lsk:` check tests the leaked pattern-loop variable (the
last raw pattern string, here non-empty), so it even logs the info record
`-- LSK loaded.`; absence of PCK and FK logs warnings and absence of SCLK
logs at error level, none fatal.  More than one resolved LSK does abort, and
with no LSK pattern configured at all the check raises `NameError`. -/
theorem C7_lsk_cardinality_bug :
    load_kernels [] ["naif0012.tls"] [] [] [] substrSearch
      ["naif9999.tls"] [] [] [] =
      LoadKernelsOutcome.completed [] [] [] []
        [(LogLevel.info, "-- LSK loaded."), (LogLevel.warning, "-- PCK not found."),
         (LogLevel.warning, "-- FK not found."), (LogLevel.error, "-- SCLK not found.")] ∧
    load_kernels [] ["naif0011.tls", "naif0012.tls"] [] [] [] substrSearch
      ["naif0011.tls", "naif0012.tls"] [] [] [] =
      LoadKernelsOutcome.fatal "Only one LSK should be obtained." ∧
    load_kernels [] [] [] [] [] substrSearch [] [] [] [] =
      LoadKernelsOutcome.nameError :=
  ⟨rfl, rfl, rfl⟩

/-- C8: the three matcher failure conditions are signalled as three distinct
error kinds — undefined field, length mismatch, literal mismatch — each
produced on a concrete input and pairwise distinguishable. -/
theorem C8_distinct_error_kinds :
    match_patterns "insight_2021_v02.tm" "insight_$YEAR_v$VERSION.tm"
      [("VERSION", 2)] =
      Except.error (MatchPatternError.undefinedField "YEAR") ∧
    match_patterns "insight_2021_v02.tm" "insight_$YEAR_v$VERSION.tm"
      [("VERSION", 2), ("YEAR", 10)] =
      Except.error MatchPatternError.lengthMismatch ∧
    match_patterns "insighty2021_v02.tm" "insight_$YEAR_v$VERSION.tm"
      [("VERSION", 2), ("YEAR", 4)] =
      Except.error MatchPatternError.literalMismatch ∧
    MatchPatternError.undefinedField "YEAR" ≠ MatchPatternError.lengthMismatch ∧
    MatchPatternError.undefinedField "YEAR" ≠ MatchPatternError.literalMismatch ∧
    MatchPatternError.lengthMismatch ≠ MatchPatternError.literalMismatch :=
  ⟨rfl, rfl, rfl, by decide, by decide, by decide⟩

/-- C9: when both increment bounds are present in the configuration, the
pairing check fails exactly when one is non-empty and the other empty; it
passes when neither bound is provided and when both are provided non-empty;
and whenever it fails the orchestrated run reports the pairing error
whatever the time values are, i.e. before the temporal consistency check can
contribute. -/
theorem C9_increment_pairing (s f : String) :
    (check_increment_pairing (some s) (some f) = false ↔
      ((s ≠ "" ∧ f = "") ∨ (s = "" ∧ f ≠ ""))) ∧
    check_increment_pairing none none = true ∧
    (s ≠ "" → f ≠ "" → check_increment_pairing (some s) (some f) = true) ∧
    (∀ a b c d : Int, check_increment_pairing (some s) (some f) = false →
      orchestrator_checks (some s) (some f) a b c d = Except.error
        "If provided via configuration, increment_start and increment_finish parameters need to be provided together.") := by
  refine ⟨?_, rfl, ?_, ?_⟩
  · unfold check_increment_pairing pyTruthy
    by_cases hs : s = "" <;> by_cases hf : f = "" <;> simp [hs, hf]
  · intro hs hf
    unfold check_increment_pairing pyTruthy
    simp [hs, hf]
  · intro a b c d h
    unfold orchestrator_checks
    rw [h]
    rfl

/-- C9 witness: `increment_start` provided non-empty with `increment_finish`
empty fails the pairing check and the orchestrated run stops with the
pairing error; both provided non-empty passes. -/
theorem C9_increment_pairing_witness :
    check_increment_pairing (some "2021-01-01T00:00:00.000Z") (some "") = false ∧
    orchestrator_checks (some "2021-01-01T00:00:00.000Z") (some "") 0 1 2 3 =
      Except.error
        "If provided via configuration, increment_start and increment_finish parameters need to be provided together." ∧
    check_increment_pairing (some "a") (some "b") = true :=
  ⟨(C9_increment_pairing "2021-01-01T00:00:00.000Z" "").1.mpr
     (Or.inl ⟨by decide, rfl⟩),
   (C9_increment_pairing "2021-01-01T00:00:00.000Z" "").2.2.2 0 1 2 3
     ((C9_increment_pairing "2021-01-01T00:00:00.000Z" "").1.mpr
       (Or.inl ⟨by decide, rfl⟩)),
   (C9_increment_pairing "a" "b").2.2.1 (by decide) (by decide)⟩

/-- C10: `end_of_line` must be exactly `"CRLF"` or `"LF"`: `"CRLF"` yields
the two-character string `"\r\n"`, `"LF"` the one-character string `"\n"`,
and any other value is an error. -/
theorem C10_end_of_line (s : String) :
    configure_end_of_line "CRLF" = Except.ok ("\r\n", 2) ∧
    ("\r\n" : String).length = 2 ∧
    configure_end_of_line "LF" = Except.ok ("\n", 1) ∧
    ("\n" : String).length = 1 ∧
    (s ≠ "CRLF" → s ≠ "LF" →
      configure_end_of_line s =
        Except.error "End of Line provided via configuration is not CRLF nor LF") := by
  refine ⟨rfl, rfl, rfl, rfl, ?_⟩
  intro h1 h2
  unfold configure_end_of_line
  rw [if_neg h1, if_neg h2]

/-- C10 witness: the value `"CR"` is rejected. -/
theorem C10_end_of_line_witness :
    configure_end_of_line "CR" =
      Except.error "End of Line provided via configuration is not CRLF nor LF" :=
  (C10_end_of_line "CR").2.2.2.2 (by decide) (by decide)
